import Mathlib

/-!
Verification of the draft/autosave/persistence subsystem of the postman
repository.  JavaScript object maps keyed by request/collection id are
embedded as association lists; partial-update objects ("patches") are embedded
as structures of `Option` fields, where `none` models a key that is absent
from the patch.  (A JS key explicitly set to `undefined` is identified with an
absent key; no call site in the repository passes explicit `undefined`.)
-/

namespace Postman

/-! ### Association-list maps (JS object maps keyed by string) -/

/-- Lookup, modelling `m[k]` (first binding wins; every operation below keeps
keys unique when the input's keys are unique). -/
def assocGet {α : Type} : List (String × α) → String → Option α
  | [], _ => none
  | (k', v) :: rest, k => if k' = k then some v else assocGet rest k

/-- Insert-or-overwrite, modelling the spread `\x7b ...m, [k]: v \x7d`. -/
def assocSet {α : Type} : List (String × α) → String → α → List (String × α)
  | [], k, v => [(k, v)]
  | (k', v') :: rest, k, v =>
      if k' = k then (k, v) :: rest else (k', v') :: assocSet rest k v

/-- Key removal, modelling rest-destructuring `const \x7b [k]: _, ...rest \x7d = m`. -/
def assocRemove {α : Type} : List (String × α) → String → List (String × α)
  | [], _ => []
  | (k', v) :: rest, k =>
      if k' = k then assocRemove rest k else (k', v) :: assocRemove rest k

theorem assocGet_assocSet_self {α : Type} (m : List (String × α)) (k : String) (v : α) :
    assocGet (assocSet m k v) k = some v := by
  induction m with
  | nil => simp [assocSet, assocGet]
  | cons hd tl ih =>
      by_cases h : hd.1 = k
      · simp [assocSet, assocGet, h]
      · simp [assocSet, assocGet, h, ih]

theorem assocGet_assocSet_ne {α : Type} (m : List (String × α)) (k k' : String) (v : α)
    (h : k ≠ k') : assocGet (assocSet m k v) k' = assocGet m k' := by
  induction m with
  | nil => simp [assocSet, assocGet, h]
  | cons hd tl ih =>
      by_cases hk : hd.1 = k
      · simp [assocSet, assocGet, hk, h]
      · simp only [assocSet, hk, if_false]
        by_cases hk' : hd.1 = k'
        · simp [assocGet, hk']
        · simp [assocGet, hk', ih]

theorem assocGet_assocRemove_self {α : Type} (m : List (String × α)) (k : String) :
    assocGet (assocRemove m k) k = none := by
  induction m with
  | nil => simp [assocRemove, assocGet]
  | cons hd tl ih =>
      obtain ⟨k', v⟩ := hd
      by_cases h : k' = k
      · simpa [assocRemove, h] using ih
      · simpa [assocRemove, assocGet, h] using ih

theorem assocGet_assocRemove_ne {α : Type} (m : List (String × α)) (k k' : String)
    (h : k' ≠ k) : assocGet (assocRemove m k) k' = assocGet m k' := by
  induction m with
  | nil => simp [assocRemove, assocGet]
  | cons hd tl ih =>
      obtain ⟨a, v⟩ := hd
      by_cases hk : a = k
      · subst hk
        simpa [assocRemove, assocGet, Ne.symm h] using ih
      · by_cases hk' : a = k'
        · subst hk'
          simp [assocRemove, assocGet, hk]
        · simpa [assocRemove, assocGet, hk, hk'] using ih

/-! ### Data model (spec.md section 3, requestsStore.js) -/

/-- One row of `headers` / `params` / `body.formdata`. -/
structure KVRow where
  id : String
  key : String
  value : String
  enabled : Bool
  description : String
deriving Repr, DecidableEq

/-- The body record: `activeType` plus one independent storage slot per type.
All four slots are structurally always present in this embedding, exactly as
the store's invariant demands. -/
structure Body where
  activeType : String
  json : String
  formdata : List KVRow
  raw : String
deriving Repr, DecidableEq

structure Auth where
  type : String
  data : List (String × String)
deriving Repr, DecidableEq

/-- A complete request resource / draft.  `isNew` models the `isNew` property
carried by drafts of not-yet-persisted requests (absent = `false`). -/
structure Request where
  id : String
  name : String
  method : String
  url : String
  headers : List KVRow
  params : List KVRow
  body : Body
  auth : Auth
  isNew : Bool
deriving Repr, DecidableEq

/-- Model of `createDefaultBody` from requestsStore.js. -/
def createDefaultBody : Body :=
  { activeType := "none", json := "\x7b\n  \n\x7d", formdata := [], raw := "" }

/-- Model of `createDefaultRequest(\x7b id \x7d)` from requestsStore.js: the default request
with only the id overridden (the call form used by `updateDraft`).  When a
complete resource is passed as overrides, `createDefaultRequest` returns that
resource itself, since every field is present; `openRequest` below uses the
base resource directly for that case. -/
def createDefaultRequest (id : String) : Request :=
  { id := id, name := "New Request", method := "GET", url := "",
    headers := [], params := [], body := createDefaultBody,
    auth := { type := "none", data := [] }, isNew := false }

/-! ### Patches (partial update objects) -/

structure BodyPatch where
  activeType : Option String := none
  json : Option String := none
  formdata : Option (List KVRow) := none
  raw : Option String := none
deriving Repr, DecidableEq

structure AuthPatch where
  type : Option String := none
  data : Option (List (String × String)) := none
deriving Repr, DecidableEq

structure RequestPatch where
  id : Option String := none
  name : Option String := none
  method : Option String := none
  url : Option String := none
  headers : Option (List KVRow) := none
  params : Option (List KVRow) := none
  body : Option BodyPatch := none
  auth : Option AuthPatch := none
  isNew : Option Bool := none
deriving Repr, DecidableEq

/-- Keywise merge of a body patch, modelling
`mergedDraft.body = \x7b ...existingDraft.body, ...changes.body \x7d`
(requestsStore.js line 239). -/
def mergeBody (b : Body) (p : BodyPatch) : Body :=
  { activeType := p.activeType.getD b.activeType
    json := p.json.getD b.json
    formdata := p.formdata.getD b.formdata
    raw := p.raw.getD b.raw }

/-- Keywise merge of an auth patch (requestsStore.js line 242). -/
def mergeAuth (a : Auth) (p : AuthPatch) : Auth :=
  { type := p.type.getD a.type, data := p.data.getD a.data }

/-- The merge performed by `updateDraft` (requestsStore.js lines 232-243):
the top-level spread `\x7b ...existingDraft, ...changes \x7d` replaces each field
present in the patch, and then `body` / `auth` are re-merged keywise when the
patch carries them, so the net effect on those two nested objects is a
per-key override. -/
def mergeDraft (d : Request) (p : RequestPatch) : Request :=
  { id := p.id.getD d.id
    name := p.name.getD d.name
    method := p.method.getD d.method
    url := p.url.getD d.url
    headers := p.headers.getD d.headers
    params := p.params.getD d.params
    body := match p.body with
            | none => d.body
            | some bp => mergeBody d.body bp
    auth := match p.auth with
            | none => d.auth
            | some ap => mergeAuth d.auth ap
    isNew := p.isNew.getD d.isNew }

/-! ### The requests store (requestsStore.js) -/

/-- A view-level tab handle, `\x7b collectionId, requestId, isNew \x7d`. -/
structure Tab where
  collectionId : String
  requestId : String
  isNew : Bool
deriving Repr, DecidableEq

/-- The Zustand store state of requestsStore.js.  Dirty entries are stored as
`(id, true)` bindings, matching `dirtyRequests[id] = true`; an absent binding
means clean. -/
structure RequestsState where
  activeRequestId : Option String
  activeCollectionId : Option String
  openTabs : List Tab
  drafts : List (String × Request)
  dirtyRequests : List (String × Bool)
  savingRequests : List (String × Bool)
  saveVersions : List (String × Nat)
deriving Repr, DecidableEq

/-- Model of `openRequest(collectionId, request)` (requestsStore.js lines 117-163).
When no tab exists for the pair, a cached draft is reused as-is and only when
none exists is the base resource cloned (`createDefaultRequest` applied to a
complete resource returns that resource, every field being present). -/
def openRequest (st : RequestsState) (collectionId : String) (request : Request) :
    RequestsState :=
  let existingTab := st.openTabs.find?
    (fun t => t.collectionId == collectionId && t.requestId == request.id)
  match existingTab with
  | some _ =>
      { st with activeRequestId := some request.id,
                activeCollectionId := some collectionId }
  | none =>
      let newTab : Tab := { collectionId := collectionId, requestId := request.id,
                            isNew := false }
      let draftToUse := (assocGet st.drafts request.id).getD request
      { st with openTabs := st.openTabs ++ [newTab],
                activeRequestId := some request.id,
                activeCollectionId := some collectionId,
                drafts := assocSet st.drafts request.id draftToUse }

/-- Model of `closeTab(requestId)` (requestsStore.js lines 175-207): the tab is removed
and the active tab may switch, but `drafts` and `dirtyRequests` are not
touched. -/
def closeTab (st : RequestsState) (requestId : String) : RequestsState :=
  let newTabs := st.openTabs.filter (fun t => t.requestId != requestId)
  let active :=
    if st.activeRequestId == some requestId && newTabs.length > 0 then
      match newTabs.getLast? with
      | some lastTab => (some lastTab.requestId, some lastTab.collectionId)
      | none => (st.activeRequestId, st.activeCollectionId)
    else if newTabs.length == 0 then (none, none)
    else (st.activeRequestId, st.activeCollectionId)
  { st with openTabs := newTabs,
            activeRequestId := active.1,
            activeCollectionId := active.2 }

/-- Model of `updateDraft(requestId, changes)` (requestsStore.js lines 227-259): merge
into the existing draft (default-creating one if absent) and mark dirty. -/
def updateDraft (st : RequestsState) (requestId : String) (changes : RequestPatch) :
    RequestsState :=
  let existingDraft := (assocGet st.drafts requestId).getD (createDefaultRequest requestId)
  let mergedDraft := mergeDraft existingDraft changes
  { st with drafts := assocSet st.drafts requestId mergedDraft,
            dirtyRequests := assocSet st.dirtyRequests requestId true }

/-- Model of `markClean(requestId)` (requestsStore.js lines 293-297). -/
def markClean (st : RequestsState) (requestId : String) : RequestsState :=
  { st with dirtyRequests := assocRemove st.dirtyRequests requestId }

/-- Model of `clearDraft(requestId)` (requestsStore.js lines 303-307). -/
def clearDraft (st : RequestsState) (requestId : String) : RequestsState :=
  { st with drafts := assocRemove st.drafts requestId }

/-- Model of `replaceRequestId(oldRequestId, newRequestId, updates)` (requestsStore.js
lines 344-374).  The only call site passes `updates = \x7b name \x7d`, which
patches a display-name property on the tab object that this embedding's `Tab`
does not carry, so `updates` is omitted here. -/
def replaceRequestId (st : RequestsState) (oldRequestId newRequestId : String) :
    RequestsState :=
  let newTabs := st.openTabs.map (fun t =>
    if t.requestId == oldRequestId
    then { t with requestId := newRequestId, isNew := false }
    else t)
  let otherDrafts := assocRemove st.drafts oldRequestId
  let newDrafts :=
    match assocGet st.drafts oldRequestId with
    | some oldDraft =>
        assocSet otherDrafts newRequestId
          { oldDraft with id := newRequestId, isNew := false }
    | none => otherDrafts
  { st with
      openTabs := newTabs,
      activeRequestId :=
        if st.activeRequestId == some oldRequestId
        then some newRequestId else st.activeRequestId,
      drafts := newDrafts,
      dirtyRequests := assocRemove st.dirtyRequests oldRequestId }

/-- Model of `incrementSaveVersion(requestId)` (requestsStore.js lines 439-449): bumps
the per-resource version and returns the new value. -/
def incrementSaveVersion (st : RequestsState) (requestId : String) :
    RequestsState × Nat :=
  let currentVersion := (assocGet st.saveVersions requestId).getD 0
  ({ st with saveVersions := assocSet st.saveVersions requestId (currentVersion + 1) },
   currentVersion + 1)

/-- Model of `getSaveVersion(requestId)` (requestsStore.js lines 454-456). -/
def getSaveVersion (st : RequestsState) (requestId : String) : Nat :=
  (assocGet st.saveVersions requestId).getD 0

theorem updateDraft_get (st : RequestsState) (requestId : String) (changes : RequestPatch) :
    assocGet (updateDraft st requestId changes).drafts requestId =
      some (mergeDraft ((assocGet st.drafts requestId).getD (createDefaultRequest requestId))
        changes) := by
  simp [updateDraft, assocGet_assocSet_self]

/-- C1: `updateDraft`'s merge replaces exactly the fields present in the patch:
every scalar field absent from the patch keeps its value from the draft, the
nested `body` and `auth` objects are merged key by key (absent keys preserved,
present keys overridden), and in particular a patch containing only `method`
yields the draft with only `method` replaced. -/
theorem C1_merge_replaces_exactly_patched_fields :
    (∀ (d : Request) (p : RequestPatch), p.name = none → (mergeDraft d p).name = d.name) ∧
    (∀ (d : Request) (p : RequestPatch), p.method = none → (mergeDraft d p).method = d.method) ∧
    (∀ (d : Request) (p : RequestPatch), p.url = none → (mergeDraft d p).url = d.url) ∧
    (∀ (d : Request) (p : RequestPatch), p.headers = none → (mergeDraft d p).headers = d.headers) ∧
    (∀ (d : Request) (p : RequestPatch), p.params = none → (mergeDraft d p).params = d.params) ∧
    (∀ (d : Request) (p : RequestPatch), p.body = none → (mergeDraft d p).body = d.body) ∧
    (∀ (d : Request) (p : RequestPatch), p.auth = none → (mergeDraft d p).auth = d.auth) ∧
    (∀ (d : Request) (p : RequestPatch) (v : String),
        p.method = some v → (mergeDraft d p).method = v) ∧
    (∀ (d : Request) (p : RequestPatch) (v : String),
        p.url = some v → (mergeDraft d p).url = v) ∧
    (∀ (d : Request) (p : RequestPatch) (bp : BodyPatch), p.body = some bp →
        (mergeDraft d p).body.activeType = bp.activeType.getD d.body.activeType ∧
        (mergeDraft d p).body.json = bp.json.getD d.body.json ∧
        (mergeDraft d p).body.formdata = bp.formdata.getD d.body.formdata ∧
        (mergeDraft d p).body.raw = bp.raw.getD d.body.raw) ∧
    (∀ (d : Request) (p : RequestPatch) (ap : AuthPatch), p.auth = some ap →
        (mergeDraft d p).auth.type = ap.type.getD d.auth.type ∧
        (mergeDraft d p).auth.data = ap.data.getD d.auth.data) ∧
    (∀ (d : Request) (m : String),
        mergeDraft d { method := some m } = { d with method := m }) := by
  refine ⟨?_, ?_, ?_, ?_, ?_, ?_, ?_, ?_, ?_, ?_, ?_, ?_⟩
  · intro d p h; simp [mergeDraft, h]
  · intro d p h; simp [mergeDraft, h]
  · intro d p h; simp [mergeDraft, h]
  · intro d p h; simp [mergeDraft, h]
  · intro d p h; simp [mergeDraft, h]
  · intro d p h; simp [mergeDraft, h]
  · intro d p h; simp [mergeDraft, h]
  · intro d p v h; simp [mergeDraft, h]
  · intro d p v h; simp [mergeDraft, h]
  · intro d p bp h; simp [mergeDraft, mergeBody, h]
  · intro d p ap h; simp [mergeDraft, mergeAuth, h]
  · intro d m; rfl

/-- C2: switching the active body type never discards the other body slots:
setting `activeType = json` with content `J`, then `activeType = raw` with
content `R`, then back to `activeType = json`, leaves `json` equal to `J`
(and `raw` equal to `R`, and `formdata` untouched).  All four slots are
structurally present after every merge, since `updateDraft` always produces a
complete `Body` record. -/
theorem C2_body_slot_independence :
    ∀ (st : RequestsState) (id J R : String),
      ∃ d : Request,
        assocGet (updateDraft (updateDraft (updateDraft st id
            { body := some { activeType := some "json", json := some J } }) id
            { body := some { activeType := some "raw", raw := some R } }) id
            { body := some { activeType := some "json" } }).drafts id = some d ∧
        d.body.activeType = "json" ∧ d.body.json = J ∧ d.body.raw = R ∧
        d.body.formdata =
          ((assocGet st.drafts id).getD (createDefaultRequest id)).body.formdata := by
  intro st id J R
  refine ⟨_, updateDraft_get _ _ _, ?_, ?_, ?_, ?_⟩ <;>
    simp [updateDraft_get, mergeDraft, mergeBody]

theorem openRequest_get (st : RequestsState) (collectionId : String) (req : Request)
    (d : Request) (h : assocGet st.drafts req.id = some d) :
    assocGet (openRequest st collectionId req).drafts req.id = some d := by
  cases hfind : st.openTabs.find?
      (fun t => t.collectionId == collectionId && t.requestId == req.id) with
  | some t => simpa [openRequest, hfind] using h
  | none => simp [openRequest, hfind, h, assocGet_assocSet_self]

/-- C5: closing a tab removes only that tab's entry from the open-tabs list,
leaving the drafts map and the dirty map unchanged, so a subsequent open of
the same resource id returns the previously existing draft unchanged rather
than re-cloning the base resource. -/
theorem C5_close_tab_preserves_drafts_and_dirty :
    ∀ (st : RequestsState) (requestId : String),
      (closeTab st requestId).drafts = st.drafts ∧
      (closeTab st requestId).dirtyRequests = st.dirtyRequests ∧
      (closeTab st requestId).openTabs =
        st.openTabs.filter (fun t => t.requestId != requestId) ∧
      (∀ (collectionId : String) (req : Request) (d : Request),
        assocGet st.drafts req.id = some d →
        assocGet (openRequest (closeTab st requestId) collectionId req).drafts req.id =
          some d) := by
  intro st requestId
  refine ⟨rfl, rfl, rfl, ?_⟩
  intro collectionId req d h
  exact openRequest_get _ _ _ _ h

/-- The renderer's successful new-request save path (MainLayout performSave,
src/unnamed/part_002 lines 147-161): `replaceRequestId(tempId, savedId, ...)`,
then `clearDraft(tempId)`, then `markClean(savedId)`. -/
def saveNewRequestSwap (st : RequestsState) (tempId savedId : String) : RequestsState :=
  markClean (clearDraft (replaceRequestId st tempId savedId) tempId) savedId

/-- C6: after a new resource's first successful save, the identity swap moves
the draft, the dirty flag and any open tab from the temporary id to the
server-assigned id: the ledger holds the draft under the new id (with its id
field rewritten and isNew cleared), the temporary id resolves to no draft,
and the dirty flag is clear for both ids. -/
theorem C6_new_request_identity_swap
    (st : RequestsState) (tempId savedId : String) (draft : Request)
    (hne : tempId ≠ savedId)
    (hdraft : assocGet st.drafts tempId = some draft) :
    assocGet (saveNewRequestSwap st tempId savedId).drafts savedId =
      some { draft with id := savedId, isNew := false } ∧
    assocGet (saveNewRequestSwap st tempId savedId).drafts tempId = none ∧
    assocGet (saveNewRequestSwap st tempId savedId).dirtyRequests savedId = none ∧
    assocGet (saveNewRequestSwap st tempId savedId).dirtyRequests tempId = none ∧
    (saveNewRequestSwap st tempId savedId).openTabs =
      st.openTabs.map (fun t =>
        if t.requestId == tempId
        then { t with requestId := savedId, isNew := false } else t) := by
  refine ⟨?_, ?_, ?_, ?_, rfl⟩
  · rw [show (saveNewRequestSwap st tempId savedId).drafts =
        assocRemove (assocSet (assocRemove st.drafts tempId) savedId
          { draft with id := savedId, isNew := false }) tempId from by
          simp [saveNewRequestSwap, markClean, clearDraft, replaceRequestId, hdraft]]
    rw [assocGet_assocRemove_ne _ _ _ (Ne.symm hne), assocGet_assocSet_self]
  · rw [show (saveNewRequestSwap st tempId savedId).drafts =
        assocRemove (assocSet (assocRemove st.drafts tempId) savedId
          { draft with id := savedId, isNew := false }) tempId from by
          simp [saveNewRequestSwap, markClean, clearDraft, replaceRequestId, hdraft]]
    exact assocGet_assocRemove_self _ _
  · rw [show (saveNewRequestSwap st tempId savedId).dirtyRequests =
        assocRemove (assocRemove st.dirtyRequests tempId) savedId from rfl]
    exact assocGet_assocRemove_self _ _
  · rw [show (saveNewRequestSwap st tempId savedId).dirtyRequests =
        assocRemove (assocRemove st.dirtyRequests tempId) savedId from rfl]
    rw [assocGet_assocRemove_ne _ _ _ hne, assocGet_assocRemove_self]

/-- A concrete unsaved request used as witness data. -/
def newDraftW : Request :=
  { id := "new-1", name := "New Request", method := "POST", url := "http://x",
    headers := [], params := [], body := createDefaultBody,
    auth := { type := "none", data := [] }, isNew := true }

/-- A concrete store state with the unsaved request open and dirty. -/
def stWitness : RequestsState :=
  { activeRequestId := some "new-1", activeCollectionId := some "c1",
    openTabs := [{ collectionId := "c1", requestId := "new-1", isNew := true }],
    drafts := [("new-1", newDraftW)],
    dirtyRequests := [("new-1", true)],
    savingRequests := [], saveVersions := [] }

/-- C6 witness: the identity swap evaluated on a concrete state. -/
theorem C6_new_request_identity_swap_witness :
    ("new-1" : String) ≠ "r-77" ∧
    assocGet stWitness.drafts "new-1" = some newDraftW ∧
    assocGet (saveNewRequestSwap stWitness "new-1" "r-77").drafts "r-77" =
      some { newDraftW with id := "r-77", isNew := false } ∧
    assocGet (saveNewRequestSwap stWitness "new-1" "r-77").drafts "new-1" = none :=
  ⟨by decide, rfl,
   (C6_new_request_identity_swap stWitness "new-1" "r-77" newDraftW (by decide) rfl).1,
   (C6_new_request_identity_swap stWitness "new-1" "r-77" newDraftW (by decide) rfl).2.1⟩

/-! ### The useAutosave hook (useAutosave.js) -/

namespace AutosaveHook

/-- The mutable refs of the useAutosave hook under its single-threaded
event-loop semantics: `saveVersion`, `isSaving` and `pendingSave` are the
corresponding refs, `pendingTimer` records the armed debounce timer's
captured version, `data` is the current value of `dataRef` (payload
abstracted to a Nat), and `writes` logs each invocation of the save function
with the payload it was passed. -/
structure AutosaveState where
  saveVersion : Nat
  isSaving : Bool
  pendingSave : Bool
  pendingTimer : Option Nat
  data : Nat
  writes : List Nat
deriving Repr, DecidableEq

/-- Model of `triggerSave` (useAutosave.js lines 73-87): cancel any armed timer,
increment the version (invalidating pending saves), and arm a timer carrying
the freshly captured version. -/
def triggerSave (s : AutosaveState) : AutosaveState :=
  { s with saveVersion := s.saveVersion + 1,
           pendingTimer := some (s.saveVersion + 1) }

/-- Model of `performSave(saveVersion)` (useAutosave.js lines 37-68): a superseded
version returns at once without invoking the save function; an in-flight save
records one more pending save; otherwise the save function runs on the data
current at execution time and, when a save was pending, loops back once with
a freshly captured version (the loop iteration starts with
`pendingSave = false`, so it cannot recurse again). -/
def performSave (s : AutosaveState) (v : Nat) : AutosaveState :=
  if v ≠ s.saveVersion then s
  else if s.isSaving then { s with pendingSave := true }
  else if h : s.pendingSave then
    performSave
      { s with isSaving := false, writes := s.writes ++ [s.data],
               pendingSave := false, saveVersion := s.saveVersion + 1 }
      (s.saveVersion + 1)
  else { s with isSaving := false, writes := s.writes ++ [s.data] }
termination_by (cond s.pendingSave 1 0)
decreasing_by simp [h]

/-- n successive `triggerSave` calls. -/
def scheduleN (s : AutosaveState) : Nat → AutosaveState
  | 0 => s
  | n + 1 => triggerSave (scheduleN s n)

end AutosaveHook

/-- C3: each schedule call increments the save version by exactly one, so over
any sequence of schedules the current version is strictly increasing (and the
store-level incrementSaveVersion likewise bumps the per-resource version by
one), and a save attempt whose captured version differs from the current
version when execution begins returns without invoking the save function:
the state, in particular the log of save-function invocations, is unchanged. -/
theorem C3_version_monotonic_and_superseded_saves_noop :
    (∀ s : AutosaveHook.AutosaveState,
      (AutosaveHook.triggerSave s).saveVersion = s.saveVersion + 1) ∧
    (∀ (s : AutosaveHook.AutosaveState) (n : Nat),
      (AutosaveHook.scheduleN s n).saveVersion = s.saveVersion + n) ∧
    (∀ (s : AutosaveHook.AutosaveState) (m n : Nat), m < n →
      (AutosaveHook.scheduleN s m).saveVersion < (AutosaveHook.scheduleN s n).saveVersion) ∧
    (∀ (st : RequestsState) (id : String),
      (incrementSaveVersion st id).2 = getSaveVersion st id + 1 ∧
      getSaveVersion (incrementSaveVersion st id).1 id = getSaveVersion st id + 1) ∧
    (∀ (s : AutosaveHook.AutosaveState) (v : Nat), v ≠ s.saveVersion →
      AutosaveHook.performSave s v = s ∧
      (AutosaveHook.performSave s v).writes = s.writes) := by
  have hsched : ∀ (s : AutosaveHook.AutosaveState) (n : Nat),
      (AutosaveHook.scheduleN s n).saveVersion = s.saveVersion + n := by
    intro s n
    induction n with
    | zero => rfl
    | succ k ih =>
        simp [AutosaveHook.scheduleN, AutosaveHook.triggerSave, ih]
        omega
  refine ⟨fun s => rfl, hsched, ?_, ?_, ?_⟩
  · intro s m n hmn
    rw [hsched, hsched]
    omega
  · intro st id
    constructor
    · rfl
    · simp [incrementSaveVersion, getSaveVersion, assocGet_assocSet_self]
  · intro s v hv
    have hstate : AutosaveHook.performSave s v = s := by
      rw [AutosaveHook.performSave]
      simp [hv]
    exact ⟨hstate, by rw [hstate]⟩

/-! ### Collection storage (collectionStorage.js) -/

/-- A persisted collection document, one JSON file per collection. -/
structure CollectionDoc where
  id : String
  name : String
  createdAt : Nat
  updatedAt : Nat
  requests : List Request
deriving Repr, DecidableEq

/-- An update payload for `updateCollection`.  Fields absent from the payload
are `none`; `id`, `createdAt` and `updatedAt` may be present in the payload
but the implementation overrides them. -/
structure CollectionPatch where
  id : Option String := none
  name : Option String := none
  createdAt : Option Nat := none
  updatedAt : Option Nat := none
  requests : Option (List Request) := none
deriving Repr, DecidableEq

/-- Model of `updateCollection(id, data)` (collectionStorage.js lines 362-388), with
the disk as the map from collection id to document and `now` the write
timestamp.  The updated document is the spread of the payload over the
existing document with `id` and `createdAt` forced back to the existing
values and `updatedAt` set to the write time; when no document exists for the
id the function throws (`Collection not found`) before performing any write.
Returns the resulting disk and the outcome. -/
def updateCollection (disk : List (String × CollectionDoc)) (id : String)
    (data : CollectionPatch) (now : Nat) :
    List (String × CollectionDoc) × Except String CollectionDoc :=
  match assocGet disk id with
  | none => (disk, Except.error ("Collection not found: " ++ id))
  | some existing =>
      let updated : CollectionDoc :=
        { id := existing.id
          name := data.name.getD existing.name
          createdAt := existing.createdAt
          updatedAt := now
          requests := data.requests.getD existing.requests }
      (assocSet disk id updated, Except.ok updated)

/-- C10: updating an existing collection preserves its `id` and `createdAt`
even when the payload supplies different values, overrides only the other
fields, stamps `updatedAt` with the time of the update, and persists exactly
that document; when no collection exists for the id the call fails and
writes nothing. -/
theorem C10_update_collection_preserves_identity :
    ∀ (disk : List (String × CollectionDoc)) (id : String)
      (data : CollectionPatch) (now : Nat),
      (∀ existing : CollectionDoc, assocGet disk id = some existing →
        ∃ doc : CollectionDoc,
          (updateCollection disk id data now).2 = Except.ok doc ∧
          doc.id = existing.id ∧
          doc.createdAt = existing.createdAt ∧
          doc.updatedAt = now ∧
          doc.name = data.name.getD existing.name ∧
          doc.requests = data.requests.getD existing.requests ∧
          (updateCollection disk id data now).1 = assocSet disk id doc ∧
          assocGet (updateCollection disk id data now).1 id = some doc) ∧
      (assocGet disk id = none →
        (updateCollection disk id data now).1 = disk ∧
        (updateCollection disk id data now).2 =
          Except.error ("Collection not found: " ++ id)) := by
  intro disk id data now
  constructor
  · intro existing hex
    refine ⟨{ id := existing.id, name := data.name.getD existing.name,
              createdAt := existing.createdAt, updatedAt := now,
              requests := data.requests.getD existing.requests },
            ?_, rfl, rfl, rfl, rfl, rfl, ?_, ?_⟩ <;>
      simp [updateCollection, hex, assocGet_assocSet_self]
  · intro hnone
    constructor <;> simp [updateCollection, hnone]

/-! ### The pending-operations barrier (pendingOperations.js, preload bridge) -/

/-- One tracked operation as the barrier observes it: when it settles,
counted in timer ticks after `waitForPending` starts, and whether its promise
fulfils (`ok = true`) or rejects. -/
structure PendingOp where
  duration : Nat
  ok : Bool
deriving Repr, DecidableEq

/-- Model of `trackOperation(promise)` (pendingOperations.js lines 144-153): the
operation is added to the process-wide pending set when it starts. -/
def trackOperation (pending : List PendingOp) (op : PendingOp) : List PendingOp :=
  pending ++ [op]

/-- The `finally` handler attached by `trackOperation`: when the operation
settles it is removed from the set; `outcome` is whether it fulfilled and is
ignored, so removal happens on success and on failure alike. -/
def settleOperation (pending : List PendingOp) (op : PendingOp) (outcome : Bool) :
    List PendingOp :=
  pending.erase op

/-- Whether every pending operation settles (and is therefore removed from
the set by its `finally` handler) strictly before the timeout fires: the
set fully drains before the timeout. -/
def drainedBefore (pending : List PendingOp) (timeout : Nat) : Bool :=
  pending.all (fun op => op.duration < timeout)

/-- Model of `waitForPending(timeout)` (pendingOperations.js lines 161-184) under
promise semantics.  An empty set returns true at once.  Otherwise the code
races `Promise.all(pending)` against a rejecting timeout inside a
try/catch: `Promise.all` fulfils exactly when every operation fulfils, doing
so when the last one settles, and rejects as soon as any operation rejects;
every rejection path lands in the catch and returns false.  Hence the result
is true iff the set was empty, or every operation fulfilled and the last
settled before the timeout. -/
def waitForPending (pending : List PendingOp) (timeout : Nat) : Bool :=
  if pending.isEmpty then true
  else pending.all (fun op => op.ok) && pending.all (fun op => op.duration < timeout)

/-- C7 counterexample: a single tracked operation that fails immediately
drains the set well before the 10-tick timeout (its `finally` removes it),
yet `waitForPending` returns false, because `Promise.all` rejects and the
catch branch reports failure.  So "returns true exactly when all pending
operations fully drained before the timeout" is false on the code. -/
theorem C7_counterexample_failed_op_drains_but_returns_false :
    drainedBefore [{ duration := 0, ok := false }] 10 = true ∧
    waitForPending [{ duration := 0, ok := false }] 10 = false := by decide

/-- C7 as amended: every tracked operation is added to the pending set when
it starts and removed when it settles, whether it fulfilled or rejected; and
`waitForPending(timeout)` returns true only if the set fully drained before
the timeout, and exactly when the set was empty or every pending operation
*fulfilled* before the timeout — a tracked operation that fails is still
removed from the set but makes `waitForPending` return false. -/
theorem C7_amended_pending_barrier :
    (∀ (pending : List PendingOp) (op : PendingOp),
      op ∈ trackOperation pending op) ∧
    (∀ (pending : List PendingOp) (op : PendingOp) (outcome outcome' : Bool),
      settleOperation pending op outcome = settleOperation pending op outcome') ∧
    (∀ (pending : List PendingOp) (op : PendingOp) (outcome : Bool),
      op ∉ pending → op ∉ settleOperation (trackOperation pending op) op outcome) ∧
    (∀ (pending : List PendingOp) (timeout : Nat),
      waitForPending pending timeout = true → drainedBefore pending timeout = true) ∧
    (∀ (pending : List PendingOp) (timeout : Nat),
      waitForPending pending timeout =
        (pending.isEmpty ||
          (pending.all (fun op => op.ok) && drainedBefore pending timeout))) := by
  refine ⟨?_, ?_, ?_, ?_, ?_⟩
  · intro pending op
    simp [trackOperation]
  · intro pending op outcome outcome'
    rfl
  · intro pending op outcome hop
    have : (trackOperation pending op).erase op = pending := by
      induction pending with
      | nil => simp [trackOperation]
      | cons hd tl ih =>
          have hne : hd ≠ op := fun e => hop (e ▸ List.mem_cons_self hd tl)
          have hop' : op ∉ tl := fun m => hop (List.mem_cons_of_mem hd m)
          simp [trackOperation, List.erase_cons, hne] at ih ⊢
          simpa [trackOperation] using ih hop'
    simpa [settleOperation, this] using hop
  · intro pending timeout h
    by_cases hemp : pending.isEmpty
    · simp [drainedBefore, List.isEmpty_iff.mp hemp]
    · simp [waitForPending, hemp] at h
      simpa [drainedBefore] using h.2
  · intro pending timeout
    by_cases hemp : pending.isEmpty <;>
      simp [waitForPending, drainedBefore, hemp]

/-! ### The request executor (requestExecutor.js) -/

structure HttpResponse where
  status : Nat
  statusText : String
  headers : List (String × String)
  data : String
deriving Repr, DecidableEq

/-- One axios attempt's outcome.  `response` models axios resolving — with
`validateStatus: () => true` this covers a received HTTP response of any
status; `httpError` models a rejection that carries `error.response`;
`connError` a rejection with only an error code and message (no response
received). -/
inductive AttemptOutcome where
  | response (r : HttpResponse)
  | httpError (r : HttpResponse)
  | connError (code msg : String)
deriving Repr, DecidableEq

/-- The complete result shape `\x7b status, statusText, headers, data, time,
size \x7d`, with `isError` set on the `error.response` branch. -/
structure ExecResult where
  status : Nat
  statusText : String
  headers : List (String × String)
  data : String
  time : Nat
  size : Nat
  isError : Bool
deriving Repr, DecidableEq

/-- Model of `calculateSize` (requestExecutor.js lines 262-268) for string data:
UTF-8 byte length via TextEncoder. -/
def calculateSize (data : String) : Nat := data.utf8ByteSize

/-- The transient connection error codes that trigger a retry
(requestExecutor.js line 217). -/
def retryableErrors : List String :=
  ["ECONNRESET", "ETIMEDOUT", "ECONNREFUSED", "ENOTFOUND", "ENETUNREACH"]

/-- The typed network-error message table (requestExecutor.js lines 226-242);
an unrecognized code falls back to the raw error message. -/
def networkErrorMessage (code msg : String) : String :=
  if code = "ECONNABORTED" then "Request timeout - the server took too long to respond"
  else if code = "ECONNRESET" then "Connection reset - try again"
  else if code = "ETIMEDOUT" then "Connection timeout - could not reach the server"
  else if code = "ECONNREFUSED" then "Connection refused - server not accepting connections"
  else if code = "ENOTFOUND" then "Server not found - check the URL"
  else if code = "ENETUNREACH" then "Network unreachable - check your internet connection"
  else msg

/-- The observable behaviour of one `executeWithRetry` call: its result, how
many axios attempts it made, and the backoff delays it slept between
attempts. -/
structure RetryTrace where
  result : Except String ExecResult
  attempts : Nat
  delays : List Nat
deriving Repr

/-- The full response shape built from a received HTTP response
(requestExecutor.js lines 204-211 and 246-254). -/
def okResult (r : HttpResponse) (time : Nat) (isError : Bool) : ExecResult :=
  { status := r.status, statusText := r.statusText, headers := r.headers,
    data := r.data, time := time, size := calculateSize r.data, isError := isError }

/-- Model of `executeWithRetry(request, retryCount)` (requestExecutor.js lines
183-256), with the outcome of the axios attempt made at retry count `i`
given by `outcomes i` and its elapsed time by `elapsed i`.  A resolved
response returns the full shape immediately; a rejection carrying
`error.response` returns the full shape flagged `isError`; a rejection whose
code is in `retryableErrors` is retried after a `1000 * (retryCount + 1)` ms
backoff while `retryCount < MAX_RETRIES = 2`; any other rejection yields
the typed network-error message. -/
def executeWithRetryFrom (outcomes : Nat → AttemptOutcome) (elapsed : Nat → Nat) :
    Nat → RetryTrace
  | retryCount =>
    match outcomes retryCount with
    | .response r =>
        { result := .ok (okResult r (elapsed retryCount) false),
          attempts := 1, delays := [] }
    | .httpError r =>
        { result := .ok (okResult r (elapsed retryCount) true),
          attempts := 1, delays := [] }
    | .connError code msg =>
        if h : code ∈ retryableErrors ∧ retryCount < 2 then
          let rest := executeWithRetryFrom outcomes elapsed (retryCount + 1)
          { result := rest.result, attempts := rest.attempts + 1,
            delays := 1000 * (retryCount + 1) :: rest.delays }
        else
          { result := .error (networkErrorMessage code msg),
            attempts := 1, delays := [] }
termination_by retryCount => 3 - retryCount
decreasing_by omega

/-- Model of `execute(request)` (requestExecutor.js lines 258-260) together with the
missing-URL guard at the top of `executeWithRetry`: an empty URL throws
`URL is required` before any attempt is made. -/
def execute (outcomes : Nat → AttemptOutcome) (elapsed : Nat → Nat) (url : String) :
    RetryTrace :=
  if url = "" then { result := .error "URL is required", attempts := 0, delays := [] }
  else executeWithRetryFrom outcomes elapsed 0

theorem executeWithRetryFrom_response (outcomes : Nat → AttemptOutcome)
    (elapsed : Nat → Nat) (rc : Nat) (r : HttpResponse)
    (h : outcomes rc = AttemptOutcome.response r) :
    executeWithRetryFrom outcomes elapsed rc =
      { result := Except.ok (okResult r (elapsed rc) false),
        attempts := 1, delays := [] } := by
  rw [executeWithRetryFrom, h]

theorem executeWithRetryFrom_httpError (outcomes : Nat → AttemptOutcome)
    (elapsed : Nat → Nat) (rc : Nat) (r : HttpResponse)
    (h : outcomes rc = AttemptOutcome.httpError r) :
    executeWithRetryFrom outcomes elapsed rc =
      { result := Except.ok (okResult r (elapsed rc) true),
        attempts := 1, delays := [] } := by
  rw [executeWithRetryFrom, h]

theorem executeWithRetryFrom_retry (outcomes : Nat → AttemptOutcome)
    (elapsed : Nat → Nat) (rc : Nat) (c m : String)
    (h : outcomes rc = AttemptOutcome.connError c m)
    (hc : c ∈ retryableErrors) (hrc : rc < 2) :
    executeWithRetryFrom outcomes elapsed rc =
      { result := (executeWithRetryFrom outcomes elapsed (rc + 1)).result,
        attempts := (executeWithRetryFrom outcomes elapsed (rc + 1)).attempts + 1,
        delays := 1000 * (rc + 1) ::
          (executeWithRetryFrom outcomes elapsed (rc + 1)).delays } := by
  rw [executeWithRetryFrom, h]
  dsimp only
  rw [dif_pos ⟨hc, hrc⟩]

theorem executeWithRetryFrom_noRetry (outcomes : Nat → AttemptOutcome)
    (elapsed : Nat → Nat) (rc : Nat) (c m : String)
    (h : outcomes rc = AttemptOutcome.connError c m)
    (hneg : ¬(c ∈ retryableErrors ∧ rc < 2)) :
    executeWithRetryFrom outcomes elapsed rc =
      { result := Except.error (networkErrorMessage c m),
        attempts := 1, delays := [] } := by
  rw [executeWithRetryFrom, h]
  dsimp only
  rw [dif_neg hneg]

/-- C8: the executor makes at most 3 attempts (at most 2 retries), sleeps the
linearly increasing backoffs 1000, 2000 between them, retries only after a
rejection whose code is one of the transient connection errors (reset,
timeout, refused, DNS failure, unreachable), never retries once an HTTP
response of any status was received, and its result is always either the
complete response shape built from the final attempt's response or the typed
network-error message for the final attempt's connection error. -/
theorem C8_retry_policy :
    ∀ (outcomes : Nat → AttemptOutcome) (elapsed : Nat → Nat),
      1 ≤ (executeWithRetryFrom outcomes elapsed 0).attempts ∧
      (executeWithRetryFrom outcomes elapsed 0).attempts ≤ 3 ∧
      (executeWithRetryFrom outcomes elapsed 0).delays =
        (List.range ((executeWithRetryFrom outcomes elapsed 0).attempts - 1)).map
          (fun k => 1000 * (k + 1)) ∧
      (∀ k : Nat, k + 1 < (executeWithRetryFrom outcomes elapsed 0).attempts →
        ∃ code msg, outcomes k = AttemptOutcome.connError code msg ∧
          code ∈ retryableErrors) ∧
      (∀ (k : Nat) (r : HttpResponse),
        (outcomes k = AttemptOutcome.response r ∨ outcomes k = AttemptOutcome.httpError r) →
        k < (executeWithRetryFrom outcomes elapsed 0).attempts →
        (executeWithRetryFrom outcomes elapsed 0).attempts = k + 1) ∧
      (∀ e : String, (executeWithRetryFrom outcomes elapsed 0).result = Except.error e →
        ∃ code msg,
          outcomes ((executeWithRetryFrom outcomes elapsed 0).attempts - 1) =
            AttemptOutcome.connError code msg ∧
          e = networkErrorMessage code msg) ∧
      (∀ res : ExecResult, (executeWithRetryFrom outcomes elapsed 0).result = Except.ok res →
        ∃ (r : HttpResponse) (b : Bool),
          (outcomes ((executeWithRetryFrom outcomes elapsed 0).attempts - 1) =
              AttemptOutcome.response r ∨
           outcomes ((executeWithRetryFrom outcomes elapsed 0).attempts - 1) =
              AttemptOutcome.httpError r) ∧
          res = okResult r (elapsed ((executeWithRetryFrom outcomes elapsed 0).attempts - 1)) b) := by
  intro outcomes elapsed
  rcases h0 : outcomes 0 with r0 | r0 | ⟨c0, m0⟩
  · -- the first attempt resolves with a response: one attempt, no retry
    rw [executeWithRetryFrom_response outcomes elapsed 0 r0 h0]
    refine ⟨by norm_num, by norm_num, by simp, ?_, ?_, ?_, ?_⟩
    · intro k hk
      dsimp only at hk
      omega
    · intro k r hkr hk
      dsimp only at hk ⊢
      omega
    · intro e he
      dsimp only at he
      cases he
    · intro res hres
      dsimp only at hres
      injection hres with h
      refine ⟨r0, false, Or.inl ?_, ?_⟩
      · simpa using h0
      · simpa using h.symm
  · -- the first attempt rejects with error.response attached: still final
    rw [executeWithRetryFrom_httpError outcomes elapsed 0 r0 h0]
    refine ⟨by norm_num, by norm_num, by simp, ?_, ?_, ?_, ?_⟩
    · intro k hk
      dsimp only at hk
      omega
    · intro k r hkr hk
      dsimp only at hk ⊢
      omega
    · intro e he
      dsimp only at he
      cases he
    · intro res hres
      dsimp only at hres
      injection hres with h
      refine ⟨r0, true, Or.inr ?_, ?_⟩
      · simpa using h0
      · simpa using h.symm
  · by_cases hr0 : c0 ∈ retryableErrors
    · -- first attempt fails with a retryable code: a second attempt happens
      have e0 := executeWithRetryFrom_retry outcomes elapsed 0 c0 m0 h0 hr0 (by omega)
      norm_num at e0
      rcases h1 : outcomes 1 with r1 | r1 | ⟨c1, m1⟩
      · rw [executeWithRetryFrom_response outcomes elapsed 1 r1 h1] at e0
        norm_num at e0
        rw [e0]
        refine ⟨by norm_num, by norm_num, by norm_num [List.range_succ], ?_, ?_, ?_, ?_⟩
        · intro k hk
          dsimp only at hk
          have hk0 : k = 0 := by omega
          subst hk0
          exact ⟨c0, m0, h0, hr0⟩
        · intro k r hkr hk
          dsimp only at hk ⊢
          have : k = 0 ∨ k = 1 := by omega
          rcases this with h | h <;> subst h
          · rw [h0] at hkr
            rcases hkr with h | h <;> cases h
          · rfl
        · intro e he
          dsimp only at he
          cases he
        · intro res hres
          dsimp only at hres
          injection hres with h
          refine ⟨r1, false, Or.inl ?_, ?_⟩
          · simpa using h1
          · simpa using h.symm
      · rw [executeWithRetryFrom_httpError outcomes elapsed 1 r1 h1] at e0
        norm_num at e0
        rw [e0]
        refine ⟨by norm_num, by norm_num, by norm_num [List.range_succ], ?_, ?_, ?_, ?_⟩
        · intro k hk
          dsimp only at hk
          have hk0 : k = 0 := by omega
          subst hk0
          exact ⟨c0, m0, h0, hr0⟩
        · intro k r hkr hk
          dsimp only at hk ⊢
          have : k = 0 ∨ k = 1 := by omega
          rcases this with h | h <;> subst h
          · rw [h0] at hkr
            rcases hkr with h | h <;> cases h
          · rfl
        · intro e he
          dsimp only at he
          cases he
        · intro res hres
          dsimp only at hres
          injection hres with h
          refine ⟨r1, true, Or.inr ?_, ?_⟩
          · simpa using h1
          · simpa using h.symm
      · by_cases hr1 : c1 ∈ retryableErrors
        · -- second attempt fails transiently too: a third, final attempt
          have e1 := executeWithRetryFrom_retry outcomes elapsed 1 c1 m1 h1 hr1 (by omega)
          norm_num at e1
          rcases h2 : outcomes 2 with r2 | r2 | ⟨c2, m2⟩
          · rw [executeWithRetryFrom_response outcomes elapsed 2 r2 h2] at e1
            norm_num at e1
            rw [e1] at e0
            norm_num at e0
            rw [e0]
            refine ⟨by norm_num, by norm_num, by norm_num [List.range_succ], ?_, ?_, ?_, ?_⟩
            · intro k hk
              dsimp only at hk
              have : k = 0 ∨ k = 1 := by omega
              rcases this with h | h <;> subst h
              · exact ⟨c0, m0, h0, hr0⟩
              · exact ⟨c1, m1, h1, hr1⟩
            · intro k r hkr hk
              dsimp only at hk ⊢
              have : k = 0 ∨ k = 1 ∨ k = 2 := by omega
              rcases this with h | h | h <;> subst h
              · rw [h0] at hkr
                rcases hkr with h | h <;> cases h
              · rw [h1] at hkr
                rcases hkr with h | h <;> cases h
              · rfl
            · intro e he
              dsimp only at he
              cases he
            · intro res hres
              dsimp only at hres
              injection hres with h
              refine ⟨r2, false, Or.inl ?_, ?_⟩
              · simpa using h2
              · simpa using h.symm
          · rw [executeWithRetryFrom_httpError outcomes elapsed 2 r2 h2] at e1
            norm_num at e1
            rw [e1] at e0
            norm_num at e0
            rw [e0]
            refine ⟨by norm_num, by norm_num, by norm_num [List.range_succ], ?_, ?_, ?_, ?_⟩
            · intro k hk
              dsimp only at hk
              have : k = 0 ∨ k = 1 := by omega
              rcases this with h | h <;> subst h
              · exact ⟨c0, m0, h0, hr0⟩
              · exact ⟨c1, m1, h1, hr1⟩
            · intro k r hkr hk
              dsimp only at hk ⊢
              have : k = 0 ∨ k = 1 ∨ k = 2 := by omega
              rcases this with h | h | h <;> subst h
              · rw [h0] at hkr
                rcases hkr with h | h <;> cases h
              · rw [h1] at hkr
                rcases hkr with h | h <;> cases h
              · rfl
            · intro e he
              dsimp only at he
              cases he
            · intro res hres
              dsimp only at hres
              injection hres with h
              refine ⟨r2, true, Or.inr ?_, ?_⟩
              · simpa using h2
              · simpa using h.symm
          · -- third attempt: retryCount = 2 is not < MAX_RETRIES, no retry
            rw [executeWithRetryFrom_noRetry outcomes elapsed 2 c2 m2 h2 (by simp)] at e1
            norm_num at e1
            rw [e1] at e0
            norm_num at e0
            rw [e0]
            refine ⟨by norm_num, by norm_num, by norm_num [List.range_succ], ?_, ?_, ?_, ?_⟩
            · intro k hk
              dsimp only at hk
              have : k = 0 ∨ k = 1 := by omega
              rcases this with h | h <;> subst h
              · exact ⟨c0, m0, h0, hr0⟩
              · exact ⟨c1, m1, h1, hr1⟩
            · intro k r hkr hk
              dsimp only at hk ⊢
              have : k = 0 ∨ k = 1 ∨ k = 2 := by omega
              rcases this with h | h | h <;> subst h
              · rw [h0] at hkr
                rcases hkr with h | h <;> cases h
              · rw [h1] at hkr
                rcases hkr with h | h <;> cases h
              · rfl
            · intro e he
              dsimp only at he
              injection he with h
              refine ⟨c2, m2, ?_, ?_⟩
              · simpa using h2
              · exact h.symm
            · intro res hres
              dsimp only at hres
              cases hres
        · -- the second failure is not transient: typed error, two attempts
          have e1 := executeWithRetryFrom_noRetry outcomes elapsed 1 c1 m1 h1
            (fun hc => hr1 hc.1)
          rw [e1] at e0
          norm_num at e0
          rw [e0]
          refine ⟨by norm_num, by norm_num, by norm_num [List.range_succ], ?_, ?_, ?_, ?_⟩
          · intro k hk
            dsimp only at hk
            have hk0 : k = 0 := by omega
            subst hk0
            exact ⟨c0, m0, h0, hr0⟩
          · intro k r hkr hk
            dsimp only at hk ⊢
            have : k = 0 ∨ k = 1 := by omega
            rcases this with h | h <;> subst h
            · rw [h0] at hkr
              rcases hkr with h | h <;> cases h
            · rfl
          · intro e he
            dsimp only at he
            injection he with h
            refine ⟨c1, m1, ?_, ?_⟩
            · simpa using h1
            · exact h.symm
          · intro res hres
            dsimp only at hres
            cases hres
    · -- the first failure is not transient: typed error, single attempt
      rw [executeWithRetryFrom_noRetry outcomes elapsed 0 c0 m0 h0 (fun hc => hr0 hc.1)]
      refine ⟨by norm_num, by norm_num, by simp, ?_, ?_, ?_, ?_⟩
      · intro k hk
        dsimp only at hk
        omega
      · intro k r hkr hk
        dsimp only at hk ⊢
        have hk0 : k = 0 := by omega
        subst hk0
        rfl
      · intro e he
        dsimp only at he
        injection he with h
        refine ⟨c0, m0, ?_, ?_⟩
        · simpa using h0
        · exact h.symm
      · intro res hres
        dsimp only at hres
        cases hres

/-! ### The renderer save path (MainLayout performSave, collectionsStore) -/

/-- collectionsStore.updateRequest's request splice (src/unnamed/part_010
lines 182-193): replace the request whose id matches with the saved draft
data.  The spread of a complete draft over the stored request replaces every
field modeled here; the per-request `updatedAt` stamp is not modeled. -/
def updateRequestInCollection (c : CollectionDoc) (requestId : String)
    (data : Request) : CollectionDoc :=
  { c with requests := c.requests.map (fun r => if r.id == requestId then data else r) }

/-- performSave for an existing request (MainLayout, src/unnamed/part_001
lines 114-141), with the outcome of the underlying storage write made
explicit.  collectionsStore.updateCollection catches every IPC/storage error
internally, records it in the store's `error` field and returns null rather
than throwing (part_010 lines 82-102), and updateRequest ignores that result,
so control always reaches `clearDraft` — whether or not the write succeeded.
Returns the renderer store state and the main-process disk after the call. -/
def performSaveExisting (st : RequestsState) (disk : List (String × CollectionDoc))
    (collectionId requestId : String) (writeSucceeded : Bool) :
    RequestsState × List (String × CollectionDoc) :=
  match assocGet st.drafts requestId with
  | none => (st, disk)
  | some currentDraft =>
      let newDisk :=
        if writeSucceeded then
          match assocGet disk collectionId with
          | some c =>
              assocSet disk collectionId
                (updateRequestInCollection c requestId currentDraft)
          | none => disk
        else disk
      (clearDraft st requestId, newDisk)

/-- A concrete existing request with local edits, whose draft is dirty. -/
def draftEdited : Request :=
  { id := "r1", name := "Req 1", method := "POST", url := "http://api/x",
    headers := [], params := [], body := createDefaultBody,
    auth := { type := "none", data := [] }, isNew := false }

/-- A concrete store state: r1 is open, has a draft, and is dirty. -/
def stDirty : RequestsState :=
  { activeRequestId := some "r1", activeCollectionId := some "c1",
    openTabs := [{ collectionId := "c1", requestId := "r1", isNew := false }],
    drafts := [("r1", draftEdited)],
    dirtyRequests := [("r1", true)],
    savingRequests := [], saveVersions := [] }

/-- C4 (code bug, evaluated at the failing input): with a dirty draft for the
existing request r1 and a storage write that fails, performSave still clears
the draft from the ledger — the failure was swallowed inside
updateCollection, so clearDraft runs unconditionally — leaving the dirty
flag set but the draft gone, nothing persisted, and the same ledger state as
after a successful write.  The claim, and the store's own doc comments
(clearDraft: "Only call this after confirmed successful save"), require the
draft to be retained on a failed save. -/
theorem C4_failed_save_still_clears_draft :
    assocGet (performSaveExisting stDirty [] "c1" "r1" false).1.drafts "r1" = none ∧
    assocGet (performSaveExisting stDirty [] "c1" "r1" false).1.dirtyRequests "r1" =
      some true ∧
    (performSaveExisting stDirty [] "c1" "r1" false).2 = [] ∧
    (performSaveExisting stDirty [] "c1" "r1" false).1 =
      (performSaveExisting stDirty [] "c1" "r1" true).1 := by decide

/-! ### Autosave scheduling and the empty-URL guard (RequestEditor.jsx) -/

/-- triggerAutosave (RequestEditor.jsx lines 131-150): when an active request
and collection are set, it merges the update into the draft and (re)arms the
debounce timer that will run performSave; the returned Bool is whether a
save was scheduled.  No field validation — in particular no URL check —
happens on this path. -/
def triggerAutosave (st : RequestsState) (updates : RequestPatch) :
    RequestsState × Bool :=
  match st.activeRequestId, st.activeCollectionId with
  | some requestId, some _ => (updateDraft st requestId updates, true)
  | _, _ => (st, false)

/-- handleSend's guard (RequestEditor.jsx line 179), `!localUrl?.trim()`:
a blank URL — empty or all whitespace, i.e. whose trim is empty — means no
request is executed. -/
def handleSendExecutes (localUrl : String) : Bool :=
  !(localUrl.toList.all (fun c => c.isWhitespace))

/-- The draft of an existing request whose URL is empty. -/
def draftEmptyUrl : Request :=
  { id := "r1", name := "Req 1", method := "GET", url := "",
    headers := [], params := [], body := createDefaultBody,
    auth := { type := "none", data := [] }, isNew := false }

/-- A concrete store state whose active request's draft has an empty URL. -/
def stEmptyUrl : RequestsState :=
  { activeRequestId := some "r1", activeCollectionId := some "c1",
    openTabs := [{ collectionId := "c1", requestId := "r1", isNew := false }],
    drafts := [("r1", draftEmptyUrl)],
    dirtyRequests := [("r1", true)],
    savingRequests := [], saveVersions := [] }

/-- The stored copy of r1, which still has a non-empty URL. -/
def storedR1 : Request := { draftEmptyUrl with url := "http://old" }

/-- The stored collection document containing r1. -/
def colStored : CollectionDoc :=
  { id := "c1", name := "Col", createdAt := 0, updatedAt := 0,
    requests := [storedR1] }

/-- C9 counterexample: with the active request's draft having an empty URL,
triggerAutosave still schedules a save (it performs no validation), and the
save path persists the empty-URL resource: after the save the stored
collection document holds r1 with url = "".  This refutes "rejected before
any save is scheduled ... never persisted while the required field is
missing". -/
theorem C9_counterexample_empty_url_scheduled_and_persisted :
    (triggerAutosave stEmptyUrl { method := some "POST" }).2 = true ∧
    ((assocGet (performSaveExisting (triggerAutosave stEmptyUrl
        { method := some "POST" }).1 [("c1", colStored)] "c1" "r1" true).2 "c1").map
      (fun c => c.requests.map (fun r => r.url))) = some [""] := by decide

/-- C9 as amended: an empty URL does not block autosave — triggerAutosave
schedules a save whenever a request is active, whatever the draft's URL, and
the save path persists the draft as-is, empty URL included.  The empty-URL
rejection exists only on the execution path: handleSend is a no-op for a
blank URL, and the executor rejects a missing URL with the typed error
`URL is required` before making any network attempt. -/
theorem C9_amended_empty_url_blocks_execution_not_save :
    (∀ (st : RequestsState) (updates : RequestPatch) (requestId collectionId : String),
      st.activeRequestId = some requestId →
      st.activeCollectionId = some collectionId →
      triggerAutosave st updates = (updateDraft st requestId updates, true)) ∧
    (∀ (c : CollectionDoc) (d : Request) (r : Request),
      r ∈ c.requests → r.id = d.id →
      d ∈ (updateRequestInCollection c d.id d).requests) ∧
    handleSendExecutes "" = false ∧
    handleSendExecutes "   " = false ∧
    (∀ (outcomes : Nat → AttemptOutcome) (elapsed : Nat → Nat),
      execute outcomes elapsed "" =
        { result := Except.error "URL is required", attempts := 0, delays := [] }) := by
  refine ⟨?_, ?_, by decide, by decide, ?_⟩
  · intro st updates requestId collectionId h1 h2
    simp [triggerAutosave, h1, h2]
  · intro c d r hr hid
    have hmem := List.mem_map_of_mem (fun x : Request => if x.id == d.id then d else x) hr
    simpa [updateRequestInCollection, hid] using hmem
  · intro outcomes elapsed
    rfl

end Postman
